import Mathlib

/-!
Shallow embedding of the FRA-Connect backend (src/backend/server.py).

The service is a CRUD web API over collections of documents, claims and
villages.  We embed the Mongo collections as Lean lists inside a
`ServerState` record, and each route handler as a pure function from the
request data (plus the random draws and generated identifiers the handler
consumes) and the current state to a result together with the next state.
Python floats are embedded as rationals; `random.uniform a b` is embedded
as `a + (b - a) * u` for an underlying draw `u ∈ [0, 1]` supplied by the
caller, and `random.randint a b` as `a + x % (b - a + 1)` for a supplied
natural draw `x`.  Raised `HTTPException`s become `Except.error` values.
-/

namespace FRA

/-- `DocumentType` enum of server.py. -/
inductive DocumentType where
  | identity_proof
  | address_proof
  | land_document
  | survey_settlement
  | forest_clearance
  | photograph
  | other
deriving DecidableEq, Repr

/-- `DocumentStatus` enum of server.py. -/
inductive DocumentStatus where
  | uploaded
  | processing
  | ocr_completed
  | verified
  | rejected
deriving DecidableEq, Repr

/-- `ClaimStatus` enum of server.py. -/
inductive ClaimStatus where
  | pending
  | approved
  | rejected
  | contested
  | under_review
deriving DecidableEq, Repr

/-- `ClaimType` enum of server.py. -/
inductive ClaimType where
  | ifr
  | cfr
  | cr
deriving DecidableEq, Repr

/-- The `metadata` dictionary produced by `mock_ocr_processing`
(keys `processing_time`, `language`, `pages`). -/
structure OcrMeta where
  processing_time : ℚ
  language : String
  pages : Nat
deriving DecidableEq, Repr

/-- The `Document` pydantic model.  Timestamps are embedded as naturals
(ticks of `datetime.utcnow()` supplied by the caller). -/
structure Document where
  id : String
  filename : String
  original_filename : String
  file_path : String
  file_size : Nat
  mime_type : String
  document_type : DocumentType
  status : DocumentStatus
  claim_id : Option String
  version : Nat
  parent_document_id : Option String
  ocr_text : Option String
  ocr_confidence : ℚ
  ocr_metadata : Option OcrMeta
  uploaded_by : String
  created_at : Nat
  updated_at : Nat
deriving DecidableEq, Repr

/-- The `Village` pydantic model (`coordinates` dict flattened to
`lat`/`lng`). -/
structure Village where
  id : String
  name : String
  state : String
  district : String
  tehsil : String
  lat : ℚ
  lng : ℚ
  total_forest_area : ℚ
  created_at : Nat
deriving DecidableEq, Repr

/-- The `ForestRightsClaim` pydantic model. -/
structure ForestRightsClaim where
  id : String
  claim_number : String
  beneficiary_name : String
  village_id : String
  claim_type : ClaimType
  status : ClaimStatus
  area_claimed : ℚ
  survey_numbers : List String
  documents : List String
  ocr_confidence : ℚ
  ai_recommendation : String
  ai_confidence : ℚ
  assigned_officer : Option String
  linked_schemes : List String
  created_at : Nat
  updated_at : Nat
deriving DecidableEq, Repr

/-- The `ClaimCreate` request model: the only fields a caller of
POST /claims can supply. -/
structure ClaimCreate where
  beneficiary_name : String
  village_id : String
  claim_type : ClaimType
  area_claimed : ℚ
  survey_numbers : List String
deriving DecidableEq, Repr

/-- The `ClaimUpdate` request model (`exclude_unset` fields embedded as
`Option`). -/
structure ClaimUpdate where
  status : Option ClaimStatus
  assigned_officer : Option String
  linked_schemes : Option (List String)
deriving DecidableEq, Repr

/-- The `DocumentUpdate` request model. -/
structure DocumentUpdate where
  document_type : Option DocumentType
  status : Option DocumentStatus
deriving DecidableEq, Repr

/-- An incoming multipart `UploadFile`: name, declared content type and
byte size of the payload. -/
structure UploadFile where
  filename : String
  content_type : String
  size : Nat
deriving DecidableEq, Repr

/-- The `OCRResult` pydantic model (`extracted_fields` dict embedded as an
association list). -/
structure OCRResult where
  text : String
  confidence : ℚ
  metadata : OcrMeta
  extracted_fields : List (String × String)
deriving DecidableEq, Repr

/-- Errors raised by the handlers: `HTTPException(404)`,
`HTTPException(400)`, and FastAPI's request-validation failure (422),
which fires when a query parameter violates a declared constraint such as
`Query(50, le=100)`. -/
inductive ApiError where
  | notFound (detail : String)
  | badRequest (detail : String)
  | validationError (detail : String)
deriving DecidableEq, Repr

/-- The persistent state: the Mongo collections touched by the embedded
routes plus the set of file paths present in the uploads directory. -/
structure ServerState where
  documents : List Document
  claims : List ForestRightsClaim
  villages : List Village
  files : List String
deriving DecidableEq, Repr

/-- The empty database and empty uploads directory. -/
def initState : ServerState := { documents := [], claims := [], villages := [], files := [] }

/-- `allowed_types` list of `upload_document`. -/
def allowed_types : List String :=
  ["application/pdf", "image/jpeg", "image/jpg", "image/png", "image/tiff", "image/bmp"]

/-- `generate_filename`: `f"{unique_id}_{name}{ext}"` where
`name, ext = os.path.splitext(original)`.  Since `splitext` satisfies
`name + ext == original`, this is `unique_id ++ "_" ++ original`. -/
def generate_filename (unique_id original : String) : String :=
  unique_id ++ "_" ++ original

/-- `db.documents.find_one({"id": document_id})`. -/
def findDoc (document_id : String) (s : ServerState) : Option Document :=
  s.documents.find? (fun d => d.id == document_id)

/-- Mongo `update_one`: apply `f` to the first element satisfying `p`,
leave the rest unchanged. -/
def updateFirst (p : α → Bool) (f : α → α) : List α → List α
  | [] => []
  | a :: l => if p a then f a :: l else a :: updateFirst p f l

/-- Python's substring test `sub in s`, via `splitOn`: a non-empty `sub`
occurs in `s` iff splitting on it produces at least two pieces. -/
def strContains (sub s : String) : Bool :=
  2 ≤ (s.splitOn sub).length

/-- `random.uniform a b` for an underlying draw `u` (in `[0,1]`). -/
def uniformDraw (a b u : ℚ) : ℚ := a + (b - a) * u

/-- `random.randint a b` for an underlying draw `x`. -/
def randint (a b x : Nat) : Nat := a + x % (b - a + 1)

/-- POST /documents/upload (`upload_document`).  `unique_id` is the random
8-character stem drawn by `generate_filename`, `new_id` the uuid drawn by
the `Document` model, `now` the current clock.  A disallowed content type
raises 400 before the file write and before the insert. -/
def upload_document (file : UploadFile) (document_type : DocumentType)
    (claim_id : Option String) (uploaded_by : String)
    (unique_id new_id : String) (now : Nat) (s : ServerState) :
    Except ApiError Document × ServerState :=
  if allowed_types.contains file.content_type then
    let filename := generate_filename unique_id file.filename
    let file_path := "uploads/" ++ filename
    let doc : Document :=
      { id := new_id
        filename := filename
        original_filename := file.filename
        file_path := file_path
        file_size := file.size
        mime_type := file.content_type
        document_type := document_type
        status := .uploaded
        claim_id := claim_id
        version := 1
        parent_document_id := none
        ocr_text := none
        ocr_confidence := 0
        ocr_metadata := none
        uploaded_by := uploaded_by
        created_at := now
        updated_at := now }
    (.ok doc, { s with files := s.files ++ [file_path], documents := s.documents ++ [doc] })
  else
    (.error (.badRequest "File type not supported"), s)

/-- The random draws and environment values consumed by one run of
`mock_ocr_processing`: `u` backs `random.uniform(0.75, 0.98)` for the
confidence, the naturals back the `random.randint` calls interpolated
into the mock text and extracted fields, `areaU`/`procU` back the other
`random.uniform` calls, and `today` is `datetime.now()` formatted. -/
structure OcrRandom where
  u : ℚ
  certNo : Nat
  areaU : ℚ
  survA : Nat
  survB : Nat
  dobD : Nat
  dobM : Nat
  dobY : Nat
  aadhaar : Nat
  benef : Nat
  vill : Nat
  areaU2 : ℚ
  survA2 : Nat
  survB2 : Nat
  procU : ℚ
  pagesDraw : Nat
  today : String
deriving DecidableEq, Repr

/-- The PDF branch of the mock text, with the leading/trailing template
indentation already removed, as `mock_ocr_processing` applies `.strip()`
to it before returning. -/
def pdfMockText (r : OcrRandom) : String :=
  "FOREST RIGHTS CERTIFICATE\n\n" ++
  "Government of India\n" ++
  "Ministry of Environment, Forest and Climate Change\n\n" ++
  "Certificate No: FRC/" ++ toString (randint 1000 9999 r.certNo) ++ "/2024\n\n" ++
  "This is to certify that Shri/Smt. [Beneficiary Name]\n" ++
  "Son/Daughter of [Father Name]\n" ++
  "Village: [Village Name]\n" ++
  "District: [District Name]\n" ++
  "State: [State Name]\n\n" ++
  "is hereby granted Individual Forest Rights under\n" ++
  "The Scheduled Tribes and Other Traditional Forest\n" ++
  "Dwellers (Recognition of Forest Rights) Act, 2006\n\n" ++
  "Area Granted: " ++ toString (uniformDraw 1 5 r.areaU) ++ " hectares\n" ++
  "Survey Number: " ++ toString (randint 100 999 r.survA) ++ "/" ++
    toString (randint 1 50 r.survB) ++ "\n\n" ++
  "Date of Issue: " ++ r.today ++ "\n\n" ++
  "Authorized Signatory\n" ++
  "District Collector"

/-- The image branch of the mock text, likewise already stripped. -/
def imageMockText (r : OcrRandom) : String :=
  "Aadhaar Card / Identity Document\n\n" ++
  "Name: [Name from document]\n" ++
  "DOB: " ++ toString (randint 1 28 r.dobD) ++ "/" ++ toString (randint 1 12 r.dobM) ++
    "/" ++ toString (randint 1960 2000 r.dobY) ++ "\n" ++
  "Address: Village [Village Name], District [District Name]\n" ++
  "Aadhaar: XXXX-XXXX-" ++ toString (randint 1000 9999 r.aadhaar)

/-- `mock_ocr_processing(file_path, mime_type)`: templated text chosen by
whether `"pdf"` occurs in the lowered MIME type, confidence drawn as
`random.uniform(0.75, 0.98)`, metadata and extracted fields populated from
further draws. -/
def mock_ocr_processing (file_path mime_type : String) (r : OcrRandom) : OCRResult :=
  let mock_text :=
    if strContains "pdf" mime_type.toLower then pdfMockText r else imageMockText r
  let extracted_fields : List (String × String) :=
    [("beneficiary_name", "Beneficiary " ++ toString (randint 1 100 r.benef)),
     ("village", "Village " ++ toString (randint 1 50 r.vill)),
     ("area", toString (uniformDraw 1 5 r.areaU2)),
     ("survey_number", toString (randint 100 999 r.survA2) ++ "/" ++
        toString (randint 1 50 r.survB2))]
  let confidence := uniformDraw (75/100) (98/100) r.u
  { text := mock_text
    confidence := confidence
    metadata :=
      { processing_time := uniformDraw (1/2) 2 r.procU
        language := "english"
        pages := if strContains "image" mime_type then 1 else randint 1 5 r.pagesDraw }
    extracted_fields := extracted_fields }

/-- The JSON object returned by POST /documents/\x7bid\x7d/ocr. -/
structure OcrResponse where
  document_id : String
  status : String
  ocr_result : OCRResult
deriving DecidableEq, Repr

/-- POST /documents/\x7bid\x7d/ocr (`process_ocr`): 404 if the id is absent,
otherwise set status to `processing`, run the mock OCR, then store text,
confidence and metadata with status `ocr_completed`. -/
def process_ocr (document_id : String) (r : OcrRandom) (now : Nat) (s : ServerState) :
    Except ApiError OcrResponse × ServerState :=
  match findDoc document_id s with
  | none => (.error (.notFound "Document not found"), s)
  | some doc =>
    let docs1 := updateFirst (fun d => d.id == document_id)
      (fun d => { d with status := .processing, updated_at := now }) s.documents
    let s1 := { s with documents := docs1 }
    let ocr_result := mock_ocr_processing doc.file_path doc.mime_type r
    let docs2 := updateFirst (fun d => d.id == document_id)
      (fun d => { d with
          status := .ocr_completed
          ocr_text := some ocr_result.text
          ocr_confidence := ocr_result.confidence
          ocr_metadata := some ocr_result.metadata
          updated_at := now }) s1.documents
    let s2 := { s1 with documents := docs2 }
    (.ok { document_id := document_id, status := "ocr_completed", ocr_result := ocr_result }, s2)

/-- Mongo `cursor.limit(n)`: `0` means no limit, otherwise at most `|n|`
records are returned. -/
def applyLimit (limit : Int) (l : List α) : List α :=
  if limit = 0 then l else l.take limit.natAbs

/-- The filter dictionary of GET /documents.  Python's `if claim_id:` is
truthiness, so an empty-string claim id adds no filter. -/
def docMatches (claim_id : Option String) (dt : Option DocumentType)
    (st : Option DocumentStatus) (d : Document) : Bool :=
  (match claim_id with
   | some c => if c.isEmpty then true else d.claim_id == some c
   | none => true) &&
  (match dt with
   | some t => decide (d.document_type = t)
   | none => true) &&
  (match st with
   | some t => decide (d.status = t)
   | none => true)

/-- GET /documents (`get_documents`): FastAPI validates
`limit: int = Query(50, le=100)` before the handler runs, rejecting
`limit > 100` with a 422 validation error. -/
def get_documents (claim_id : Option String) (document_type : Option DocumentType)
    (status : Option DocumentStatus) (limit : Int) (s : ServerState) :
    Except ApiError (List Document) :=
  if limit ≤ 100 then
    .ok (applyLimit limit (s.documents.filter (docMatches claim_id document_type status)))
  else
    .error (.validationError "Input should be less than or equal to 100")

/-- The filter dictionary of GET /villages. -/
def villageMatches (state district : Option String) (v : Village) : Bool :=
  (match state with
   | some st => if st.isEmpty then true else v.state == st
   | none => true) &&
  (match district with
   | some d => if d.isEmpty then true else v.district == d
   | none => true)

/-- GET /villages (`get_villages`): `limit: int = Query(100, le=1000)`. -/
def get_villages (state district : Option String) (limit : Int) (s : ServerState) :
    Except ApiError (List Village) :=
  if limit ≤ 1000 then
    .ok (applyLimit limit (s.villages.filter (villageMatches state district)))
  else
    .error (.validationError "Input should be less than or equal to 1000")

/-- The filter dictionary of GET /claims. -/
def claimMatches (status : Option ClaimStatus) (village_id assigned_officer : Option String)
    (c : ForestRightsClaim) : Bool :=
  (match status with
   | some st => decide (c.status = st)
   | none => true) &&
  (match village_id with
   | some v => if v.isEmpty then true else c.village_id == v
   | none => true) &&
  (match assigned_officer with
   | some a => if a.isEmpty then true else c.assigned_officer == some a
   | none => true)

/-- GET /claims (`get_claims`): `limit: int = Query(100, le=1000)`. -/
def get_claims (status : Option ClaimStatus) (village_id assigned_officer : Option String)
    (limit : Int) (s : ServerState) : Except ApiError (List ForestRightsClaim) :=
  if limit ≤ 1000 then
    .ok (applyLimit limit (s.claims.filter (claimMatches status village_id assigned_officer)))
  else
    .error (.validationError "Input should be less than or equal to 1000")

/-- The `$or` family query of `create_document_version` and
`get_document_versions`: the document with the given id plus all
documents whose parent reference equals it. -/
def famFilter (document_id : String) (s : ServerState) : List Document :=
  s.documents.filter (fun d => d.id == document_id || d.parent_document_id == some document_id)

/-- The maximum version observed across the family at `document_id`
(the value read by the descending-sort/limit-1 query). -/
def famMax (document_id : String) (s : ServerState) : Nat :=
  ((famFilter document_id s).map (·.version)).foldl max 0

/-- POST /documents/\x7bid\x7d/version (`create_document_version`):
404 if the parent id is absent; otherwise version = family max + 1 (the
handler falls back to 1 when the family query is empty), document type and
claim link copied from the parent, status `uploaded`, parent reference set
to the given id. -/
def create_document_version (document_id : String) (file : UploadFile)
    (uploaded_by : String) (unique_id new_id : String) (now : Nat) (s : ServerState) :
    Except ApiError Document × ServerState :=
  match findDoc document_id s with
  | none => (.error (.notFound "Parent document not found"), s)
  | some parent =>
    let fam := famFilter document_id s
    let new_version := (if fam.isEmpty then 1 else (fam.map (·.version)).foldl max 0) + 1
    let filename := generate_filename unique_id file.filename
    let file_path := "uploads/" ++ filename
    let new_doc : Document :=
      { id := new_id
        filename := filename
        original_filename := file.filename
        file_path := file_path
        file_size := file.size
        mime_type := file.content_type
        document_type := parent.document_type
        status := .uploaded
        claim_id := parent.claim_id
        version := new_version
        parent_document_id := some document_id
        ocr_text := none
        ocr_confidence := 0
        ocr_metadata := none
        uploaded_by := uploaded_by
        created_at := now
        updated_at := now }
    (.ok new_doc,
     { s with files := s.files ++ [file_path], documents := s.documents ++ [new_doc] })

/-- Insertion step of the ascending-by-version sort. -/
def insertByVersion (d : Document) : List Document → List Document
  | [] => [d]
  | e :: l => if d.version ≤ e.version then d :: e :: l else e :: insertByVersion d l

/-- Mongo `sort("version", 1)`: sort ascending by version. -/
def sortByVersion : List Document → List Document
  | [] => []
  | d :: l => insertByVersion d (sortByVersion l)

/-- GET /documents/\x7bid\x7d/versions (`get_document_versions`): the
family query at the given id, sorted ascending by version. -/
def get_document_versions (document_id : String) (s : ServerState) : List Document :=
  sortByVersion (famFilter document_id s)

/-- PUT /documents/\x7bid\x7d (`update_document`): 404 if absent;
otherwise apply only the fields explicitly provided and touch
`updated_at`, then return the re-fetched document. -/
def update_document (document_id : String) (upd : DocumentUpdate) (now : Nat)
    (s : ServerState) : Except ApiError Document × ServerState :=
  match findDoc document_id s with
  | none => (.error (.notFound "Document not found"), s)
  | some _ =>
    let docs' := updateFirst (fun d => d.id == document_id)
      (fun d => { d with
          document_type := upd.document_type.getD d.document_type
          status := upd.status.getD d.status
          updated_at := now }) s.documents
    let s' := { s with documents := docs' }
    ((match findDoc document_id s' with
      | some d => Except.ok d
      | none => Except.error (.notFound "Document not found")), s')

/-- DELETE /documents/\x7bid\x7d (`delete_document`): 404 if absent;
best-effort removal of the backing file, then delete the record. -/
def delete_document (document_id : String) (s : ServerState) :
    Except ApiError String × ServerState :=
  match findDoc document_id s with
  | none => (.error (.notFound "Document not found"), s)
  | some doc =>
    (.ok "Document deleted successfully",
     { s with
        files := s.files.erase doc.file_path
        documents := s.documents.eraseP (fun d => d.id == document_id) })

/-- `f"{n:06d}"`. -/
def pad6 (n : Nat) : String :=
  let t := toString n
  String.mk (List.replicate (6 - t.length) '0') ++ t

/-- POST /claims (`create_claim`): claim number from the collection count,
mocked AI recommendation from the 4.0-hectare threshold, status `pending`,
hard-coded OCR confidence 0.92.  `new_id` is the uuid drawn by the model,
`year` the current year. -/
def create_claim (claim_data : ClaimCreate) (new_id : String) (year now : Nat)
    (s : ServerState) : ForestRightsClaim × ServerState :=
  let claim_count := s.claims.length
  let claim_number := "FRA-" ++ toString year ++ "-" ++ pad6 (claim_count + 1)
  let ai_recommendation := if claim_data.area_claimed < 4 then "approve" else "review"
  let ai_confidence : ℚ := if claim_data.area_claimed < 4 then 85/100 else 65/100
  let claim : ForestRightsClaim :=
    { id := new_id
      claim_number := claim_number
      beneficiary_name := claim_data.beneficiary_name
      village_id := claim_data.village_id
      claim_type := claim_data.claim_type
      status := .pending
      area_claimed := claim_data.area_claimed
      survey_numbers := claim_data.survey_numbers
      documents := []
      ocr_confidence := 92/100
      ai_recommendation := ai_recommendation
      ai_confidence := ai_confidence
      assigned_officer := none
      linked_schemes := []
      created_at := now
      updated_at := now }
  (claim, { s with claims := s.claims ++ [claim] })

/-- `db.claims.find_one({"id": claim_id})`. -/
def findClaim (claim_id : String) (s : ServerState) : Option ForestRightsClaim :=
  s.claims.find? (fun c => c.id == claim_id)

/-- PUT /claims/\x7bid\x7d (`update_claim`): 404 if absent; apply only the
explicitly provided fields (status, assignee, linked schemes) and touch
`updated_at`. -/
def update_claim (claim_id : String) (upd : ClaimUpdate) (now : Nat) (s : ServerState) :
    Except ApiError ForestRightsClaim × ServerState :=
  match findClaim claim_id s with
  | none => (.error (.notFound "Claim not found"), s)
  | some _ =>
    let claims' := updateFirst (fun c => c.id == claim_id)
      (fun c => { c with
          status := upd.status.getD c.status
          assigned_officer := (upd.assigned_officer.map some).getD c.assigned_officer
          linked_schemes := upd.linked_schemes.getD c.linked_schemes
          updated_at := now }) s.claims
    let s' := { s with claims := claims' }
    ((match findClaim claim_id s' with
      | some c => Except.ok c
      | none => Except.error (.notFound "Claim not found")), s')

/-- Status of the document at an id, as stored. -/
def docStatus (document_id : String) (s : ServerState) : Option DocumentStatus :=
  (findDoc document_id s).map (·.status)

/-- Stored OCR confidence of the document at an id. -/
def docOcrConfidence (document_id : String) (s : ServerState) : Option ℚ :=
  (findDoc document_id s).map (·.ocr_confidence)

/-- Stored OCR text of the document at an id. -/
def docOcrText (document_id : String) (s : ServerState) : Option String :=
  (findDoc document_id s).bind (·.ocr_text)

/-- Stored AI recommendation of the claim at an id. -/
def claimAiRecommendation (claim_id : String) (s : ServerState) : Option String :=
  (findClaim claim_id s).map (·.ai_recommendation)

/-- Stored AI confidence of the claim at an id. -/
def claimAiConfidence (claim_id : String) (s : ServerState) : Option ℚ :=
  (findClaim claim_id s).map (·.ai_confidence)

/-- One request to POST /documents/\x7bid\x7d/version: the uploaded file
and the generated identifiers and clock for that call. -/
structure VersionReq where
  file : UploadFile
  uploaded_by : String
  unique_id : String
  new_id : String
  now : Nat
deriving DecidableEq, Repr

/-- Run a sequence of CreateVersion calls against the same parent id,
collecting the version numbers of the successfully created documents. -/
def cvIter (document_id : String) : List VersionReq → ServerState → List Nat × ServerState
  | [], s => ([], s)
  | q :: qs, s =>
    let r := create_document_version document_id q.file q.uploaded_by q.unique_id q.new_id q.now s
    let rest := cvIter document_id qs r.2
    (((match r.1 with
       | .ok d => [d.version]
       | .error _ => []) ++ rest.1), rest.2)

/-- States reachable from the empty database through the document
operations Create (upload), CreateVersion, Update and Delete. -/
inductive Reachable : ServerState → Prop where
  | init : Reachable initState
  | upload (file : UploadFile) (dt : DocumentType) (cid : Option String)
      (ub unique_id new_id : String) (now : Nat) (s : ServerState) :
      Reachable s → Reachable (upload_document file dt cid ub unique_id new_id now s).2
  | createVersion (did : String) (file : UploadFile) (ub unique_id new_id : String)
      (now : Nat) (s : ServerState) :
      Reachable s → Reachable (create_document_version did file ub unique_id new_id now s).2
  | update (did : String) (upd : DocumentUpdate) (now : Nat) (s : ServerState) :
      Reachable s → Reachable (update_document did upd now s).2
  | delete (did : String) (s : ServerState) :
      Reachable s → Reachable (delete_document did s).2

/-! ## General lemmas about the list combinators used by the handlers -/

theorem updateFirst_find? (p : α → Bool) (f : α → α) (hf : ∀ a, p (f a) = p a) :
    ∀ l : List α, (updateFirst p f l).find? p = (l.find? p).map f := by
  intro l
  induction l with
  | nil => rfl
  | cons a l ih =>
    by_cases h : p a
    · simp [updateFirst, h, List.find?_cons_of_pos, hf]
    · simp only [updateFirst, h, if_false, Bool.false_eq_true]
      rw [List.find?_cons_of_neg _ h, List.find?_cons_of_neg _ h, ih]

theorem mem_updateFirst (p : α → Bool) (f : α → α) :
    ∀ l : List α, ∀ d, d ∈ updateFirst p f l → d ∈ l ∨ ∃ a, a ∈ l ∧ d = f a := by
  intro l
  induction l with
  | nil => intro d hd; simp [updateFirst] at hd
  | cons a l ih =>
    intro d hd
    by_cases h : p a
    · simp only [updateFirst, if_pos h, List.mem_cons] at hd
      rcases hd with hd | hd
      · exact Or.inr ⟨a, List.mem_cons_self a l, hd⟩
      · exact Or.inl (List.mem_cons_of_mem a hd)
    · simp only [updateFirst, if_neg h, List.mem_cons] at hd
      rcases hd with hd | hd
      · exact Or.inl (by simp [hd])
      · rcases ih d hd with h' | ⟨b, hb, hdb⟩
        · exact Or.inl (List.mem_cons_of_mem a h')
        · exact Or.inr ⟨b, List.mem_cons_of_mem a hb, hdb⟩

theorem foldl_max_init_le (l : List Nat) : ∀ i : Nat, i ≤ l.foldl max i := by
  induction l with
  | nil => intro i; exact Nat.le_refl i
  | cons a l ih =>
    intro i
    exact Nat.le_trans (Nat.le_max_left i a) (ih (max i a))

theorem le_foldl_max_of_mem {a : Nat} :
    ∀ l : List Nat, a ∈ l → ∀ i : Nat, a ≤ l.foldl max i := by
  intro l
  induction l with
  | nil => intro h; simp at h
  | cons b l ih =>
    intro h i
    rcases List.mem_cons.1 h with h | h
    · subst h
      exact Nat.le_trans (Nat.le_max_right i a) (foldl_max_init_le l (max i a))
    · exact ih h (max i b)

theorem mem_insertByVersion (d x : Document) :
    ∀ l : List Document, (x ∈ insertByVersion d l ↔ x = d ∨ x ∈ l) := by
  intro l
  induction l with
  | nil => simp [insertByVersion]
  | cons e l ih =>
    by_cases h : d.version ≤ e.version
    · simp [insertByVersion, if_pos h]
    · simp only [insertByVersion, if_neg h, List.mem_cons, ih]
      tauto

theorem pairwise_insertByVersion (d : Document) :
    ∀ l : List Document, l.Pairwise (fun a b => a.version ≤ b.version) →
      (insertByVersion d l).Pairwise (fun a b => a.version ≤ b.version) := by
  intro l
  induction l with
  | nil => intro _; simp [insertByVersion]
  | cons e l ih =>
    intro hp
    rcases List.pairwise_cons.1 hp with ⟨he, hl⟩
    by_cases h : d.version ≤ e.version
    · rw [insertByVersion, if_pos h]
      refine List.pairwise_cons.2 ⟨?_, hp⟩
      intro x hx
      rcases List.mem_cons.1 hx with hx | hx
      · simpa [hx] using h
      · exact Nat.le_trans h (he x hx)
    · rw [insertByVersion, if_neg h]
      refine List.pairwise_cons.2 ⟨?_, ih hl⟩
      intro x hx
      rcases (mem_insertByVersion d x l).1 hx with hx | hx
      · subst hx; omega
      · exact he x hx

theorem mem_sortByVersion (x : Document) :
    ∀ l : List Document, (x ∈ sortByVersion l ↔ x ∈ l) := by
  intro l
  induction l with
  | nil => simp [sortByVersion]
  | cons d l ih =>
    simp [sortByVersion, mem_insertByVersion, ih]

theorem pairwise_sortByVersion :
    ∀ l : List Document, (sortByVersion l).Pairwise (fun a b => a.version ≤ b.version) := by
  intro l
  induction l with
  | nil => simp [sortByVersion]
  | cons d l ih => exact pairwise_insertByVersion d (sortByVersion l) ih

theorem str_append_ne_empty (a b : String) (h : a ≠ "") : a ++ b ≠ "" := by
  intro hab
  apply h
  have hl := congrArg String.length hab
  rw [String.length_append, String.length_empty] at hl
  have ha : a.length = 0 := by omega
  cases a with
  | mk data =>
    cases data with
    | nil => rfl
    | cons c cs => simp [String.length] at ha

/-! ## Lemmas about `create_document_version` and the family query -/

theorem parent_mem_famFilter {did : String} {s : ServerState} {p : Document}
    (h : findDoc did s = some p) : p ∈ famFilter did s := by
  simp only [findDoc] at h
  have hm := List.mem_of_find?_eq_some h
  have hp := List.find?_some h
  refine List.mem_filter.2 ⟨hm, ?_⟩
  simp only at hp
  simp [hp]

theorem famFilter_isEmpty_false {did : String} {s : ServerState} {p : Document}
    (h : findDoc did s = some p) : (famFilter did s).isEmpty = false :=
  List.isEmpty_eq_false.2 (List.ne_nil_of_mem (parent_mem_famFilter h))

theorem cv_fst_ok {did : String} {s : ServerState} {p : Document}
    (f : UploadFile) (ub uid nid : String) (now : Nat)
    (h : findDoc did s = some p) :
    ∃ d, (create_document_version did f ub uid nid now s).1 = Except.ok d ∧
      d.version = famMax did s + 1 := by
  rw [create_document_version, h]
  refine ⟨_, rfl, ?_⟩
  simp only [famFilter_isEmpty_false h, Bool.false_eq_true, if_false]
  rfl

theorem cv_findDoc_after {did : String} {s : ServerState} {p : Document}
    (f : UploadFile) (ub uid nid : String) (now : Nat)
    (h : findDoc did s = some p) :
    findDoc did (create_document_version did f ub uid nid now s).2 = some p := by
  rw [create_document_version, h]
  simp only [findDoc] at h ⊢
  rw [List.find?_append, h, Option.or_some]

theorem cv_famMax_after {did : String} {s : ServerState} {p : Document}
    (f : UploadFile) (ub uid nid : String) (now : Nat)
    (h : findDoc did s = some p) :
    famMax did (create_document_version did f ub uid nid now s).2 = famMax did s + 1 := by
  rw [create_document_version, h]
  have hie := famFilter_isEmpty_false h
  simp only [famFilter] at hie
  simp only [famMax, famFilter, List.filter_append, List.map_append, List.foldl_append,
    List.filter_cons, beq_self_eq_true, Bool.or_true, if_true, List.filter_nil,
    List.map_cons, List.map_nil, hie, Bool.false_eq_true, if_false,
    List.foldl_cons, List.foldl_nil]
  exact Nat.max_eq_right (Nat.le_succ _)

theorem cvIter_versions (did : String) (p : Document) :
    ∀ (reqs : List VersionReq) (s : ServerState), findDoc did s = some p →
      (cvIter did reqs s).1 = List.range' (famMax did s + 1) reqs.length := by
  intro reqs
  induction reqs with
  | nil => intro s _; rfl
  | cons q qs ih =>
    intro s h
    obtain ⟨d, hd, hv⟩ := cv_fst_ok q.file q.uploaded_by q.unique_id q.new_id q.now h
    simp only [cvIter, hd, hv,
      ih _ (cv_findDoc_after q.file q.uploaded_by q.unique_id q.new_id q.now h),
      cv_famMax_after q.file q.uploaded_by q.unique_id q.new_id q.now h,
      List.length_cons, List.range'_succ, List.singleton_append]

/-! ## The version/parent invariant over reachable states -/

/-- Every stored document has version at least 1, and a version-1 document
carries no parent reference. -/
def DocInv (s : ServerState) : Prop :=
  ∀ d ∈ s.documents, 1 ≤ d.version ∧ (d.version = 1 → d.parent_document_id = none)

theorem newVersion_base_ge_one {did : String} {s : ServerState} {p : Document}
    (h : findDoc did s = some p) (inv : DocInv s) :
    1 ≤ (if (famFilter did s).isEmpty then 1
         else ((famFilter did s).map (·.version)).foldl max 0) := by
  by_cases he : (famFilter did s).isEmpty = true
  · simp [he]
  · have hmem : p ∈ famFilter did s := parent_mem_famFilter h
    have hpm : p.version ∈ (famFilter did s).map (·.version) :=
      List.mem_map_of_mem _ hmem
    have h1 : 1 ≤ p.version := by
      simp only [findDoc] at h
      exact (inv p (List.mem_of_find?_eq_some h)).1
    have h2 := le_foldl_max_of_mem _ hpm 0
    simp only [he, Bool.false_eq_true, if_false]
    omega

theorem reachable_docInv {s : ServerState} (h : Reachable s) : DocInv s := by
  induction h with
  | init => intro d hd; simp [initState] at hd
  | upload file dt cid ub uid nid now s hr ih =>
    intro d hd
    simp only [upload_document] at hd
    by_cases hc : allowed_types.contains file.content_type = true
    · rw [if_pos hc] at hd
      simp only [List.mem_append, List.mem_singleton] at hd
      rcases hd with hd | hd
      · exact ih d hd
      · subst hd
        exact ⟨Nat.le_refl 1, fun _ => rfl⟩
    · rw [if_neg hc] at hd
      exact ih d hd
  | createVersion did file ub uid nid now s hr ih =>
    intro d hd
    cases hfd : findDoc did s with
    | none =>
      simp only [create_document_version, hfd] at hd
      exact ih d hd
    | some parent =>
      simp only [create_document_version, hfd] at hd
      simp only [List.mem_append, List.mem_singleton] at hd
      rcases hd with hd | hd
      · exact ih d hd
      · subst hd
        have hb := newVersion_base_ge_one hfd ih
        refine ⟨Nat.le_add_left 1 _, fun hv => ?_⟩
        exfalso
        have hv' : (if (famFilter did s).isEmpty then 1
            else ((famFilter did s).map (·.version)).foldl max 0) + 1 = 1 := hv
        omega
  | update did upd now s hr ih =>
    intro d hd
    cases hfd : findDoc did s with
    | none =>
      simp only [update_document, hfd] at hd
      exact ih d hd
    | some doc0 =>
      simp only [update_document, hfd] at hd
      rcases mem_updateFirst _ _ _ d hd with hd | ⟨a, ha, hda⟩
      · exact ih d hd
      · subst hda
        exact ⟨(ih a ha).1, fun hv => (ih a ha).2 hv⟩
  | delete did s hr ih =>
    intro d hd
    cases hfd : findDoc did s with
    | none =>
      simp only [delete_document, hfd] at hd
      exact ih d hd
    | some doc0 =>
      simp only [delete_document, hfd] at hd
      exact ih d ((List.eraseP_sublist _).subset hd)

/-! ## Concrete fixtures used by witnesses and counterexamples -/

/-- A PDF upload request. -/
def exFile1 : UploadFile :=
  { filename := "cert.pdf", content_type := "application/pdf", size := 100 }

/-- A second PDF upload request, used as the new version's file. -/
def exFile2 : UploadFile :=
  { filename := "cert2.pdf", content_type := "application/pdf", size := 120 }

/-- State after uploading `exFile1` as document `doc1`. -/
def exState1 : ServerState :=
  (upload_document exFile1 .land_document none "admin" "abc12345" "doc1" 0 initState).2

/-- The stored root document of `exState1`. -/
def exRoot : Document :=
  { id := "doc1"
    filename := "abc12345_cert.pdf"
    original_filename := "cert.pdf"
    file_path := "uploads/abc12345_cert.pdf"
    file_size := 100
    mime_type := "application/pdf"
    document_type := .land_document
    status := .uploaded
    claim_id := none
    version := 1
    parent_document_id := none
    ocr_text := none
    ocr_confidence := 0
    ocr_metadata := none
    uploaded_by := "admin"
    created_at := 0
    updated_at := 0 }

/-- State after additionally creating version 2 (`doc2`) from `doc1`. -/
def exState2 : ServerState :=
  (create_document_version "doc1" exFile2 "admin" "defg5678" "doc2" 1 exState1).2

/-- A fixed assignment of all random draws consumed by one OCR run. -/
def exOcrRandom : OcrRandom :=
  { u := 1/2, certNo := 0, areaU := 0, survA := 0, survB := 0, dobD := 0, dobM := 0,
    dobY := 0, aadhaar := 0, benef := 0, vill := 0, areaU2 := 0, survA2 := 0,
    survB2 := 0, procU := 0, pagesDraw := 0, today := "01/01/2024" }

/-- `exState1` with `doc1` marked `verified` through the Update operation. -/
def exVerifiedState : ServerState :=
  (update_document "doc1" { document_type := none, status := some .verified } 2 exState1).2

/-- Two CreateVersion requests against the same parent, run sequentially. -/
def exVersionReqs : List VersionReq :=
  [{ file := exFile2, uploaded_by := "admin", unique_id := "aaaa1111", new_id := "doc3", now := 3 },
   { file := exFile2, uploaded_by := "admin", unique_id := "bbbb2222", new_id := "doc4", now := 4 }]

/-! ## C1 -/

/-- C1: the claim that ListVersions returns the same set — the root plus
all versions — for every member of the family is false on the code: in a
family with root `doc1` and child `doc2` (created from `doc1`),
ListVersions on `doc1` returns both documents, but ListVersions on the
member `doc2` returns only `doc2`, because the query matches only
documents whose id or parent reference equals the id passed. -/
theorem listVersions_not_member_independent_counterexample :
    (get_document_versions "doc1" exState2).map (·.id) = ["doc1", "doc2"] ∧
      (get_document_versions "doc2" exState2).map (·.id) = ["doc2"] :=
  ⟨rfl, rfl⟩

/-- C1 (amended): ListVersions on an id returns exactly the stored
documents whose id or parent reference equals that id, in ascending
version order; in particular it returns the whole family — root included —
when called with the root's id, but only the member itself when called
with the id of a child that no document references as parent. -/
theorem listVersions_returns_family_query_ascending (did : String) (s : ServerState) :
    ((get_document_versions did s).Pairwise (fun a b => a.version ≤ b.version)) ∧
      (∀ d : Document, d ∈ get_document_versions did s ↔
        d ∈ s.documents ∧ (d.id = did ∨ d.parent_document_id = some did)) := by
  constructor
  · exact pairwise_sortByVersion _
  · intro d
    rw [get_document_versions, mem_sortByVersion, famFilter, List.mem_filter]
    simp [Bool.or_eq_true, beq_iff_eq]

/-! ## C2 -/

/-- C2: when the parent id is present, CreateVersion assigns the new
document a version one greater than the maximum version over the family
at that id, and a sequence of sequential CreateVersion calls against the
same family produces version numbers that are strictly increasing and
unique. -/
theorem createVersion_version_monotone (did : String) (s : ServerState)
    (f : UploadFile) (ub uid nid : String) (now : Nat) (reqs : List VersionReq)
    (h : (findDoc did s).isSome = true) :
    (∀ d, (create_document_version did f ub uid nid now s).1 = Except.ok d →
        d.version = famMax did s + 1) ∧
      ((cvIter did reqs s).1.Chain' (· < ·) ∧ (cvIter did reqs s).1.Nodup) := by
  obtain ⟨p, hp⟩ := Option.isSome_iff_exists.1 h
  constructor
  · intro d hd
    obtain ⟨d', hd', hv'⟩ := cv_fst_ok f ub uid nid now hp
    rw [hd'] at hd
    injection hd with h2
    rw [← h2]
    exact hv'
  · rw [cvIter_versions did p reqs s hp]
    exact ⟨(List.pairwise_lt_range' _ _).chain', List.nodup_range' _ _⟩

/-- Witness for C2 at the concrete one-document state: two sequential
CreateVersion calls against `doc1` give strictly increasing versions. -/
theorem createVersion_version_monotone_witness :
    (cvIter "doc1" exVersionReqs exState1).1.Chain' (· < ·) :=
  (createVersion_version_monotone "doc1" exState1 exFile2 "admin" "u" "n" 9 exVersionReqs
    (by decide)).2.1

/-! ## C3 -/

/-- C3: every document created by Upload has version 1 and no parent
reference; in every state reachable by Create, CreateVersion, Update and
Delete, a version-1 document carries no parent reference; and CreateVersion
only ever produces documents of version at least 2. -/
theorem upload_version_one_and_v1_no_parent (s : ServerState) (h : Reachable s) :
    (∀ (file : UploadFile) (dt : DocumentType) (cid : Option String)
        (ub uid nid : String) (now : Nat) (d : Document),
        (upload_document file dt cid ub uid nid now s).1 = Except.ok d →
          d.version = 1 ∧ d.parent_document_id = none) ∧
      (∀ d ∈ s.documents, d.version = 1 → d.parent_document_id = none) ∧
      (∀ (did : String) (file : UploadFile) (ub uid nid : String) (now : Nat)
          (d : Document),
        (create_document_version did file ub uid nid now s).1 = Except.ok d →
          2 ≤ d.version) := by
  refine ⟨?_, ?_, ?_⟩
  · intro file dt cid ub uid nid now d hd
    simp only [upload_document] at hd
    by_cases hc : allowed_types.contains file.content_type = true
    · rw [if_pos hc] at hd
      injection hd with h2
      rw [← h2]
      exact ⟨rfl, rfl⟩
    · rw [if_neg hc] at hd
      exact absurd hd (by simp)
  · intro d hd hv
    exact (reachable_docInv h d hd).2 hv
  · intro did file ub uid nid now d hd
    cases hfd : findDoc did s with
    | none =>
      simp only [create_document_version, hfd] at hd
      exact absurd hd (by simp)
    | some parent =>
      obtain ⟨d', hd', hv'⟩ := cv_fst_ok file ub uid nid now hfd
      rw [hd'] at hd
      injection hd with h2
      rw [← h2, hv']
      have hb := newVersion_base_ge_one hfd (reachable_docInv h)
      rw [famFilter_isEmpty_false hfd] at hb
      simp only [Bool.false_eq_true, if_false] at hb
      have h2' : 1 ≤ famMax did s := hb
      omega

/-- Witness for C3 at the concrete reachable one-document state. -/
theorem upload_version_one_and_v1_no_parent_witness :
    exRoot.parent_document_id = none :=
  (upload_version_one_and_v1_no_parent exState1
      (Reachable.upload exFile1 .land_document none "admin" "abc12345" "doc1" 0 initState
        Reachable.init)).2.1
    exRoot (by decide) rfl

/-! ## C4 -/

/-- C4: the claim that `verified` and `rejected` are terminal for OCR is
false on the code: `process_ocr` has no status guard, so RequestOCR on a
document whose stored status is `verified` succeeds and moves it to
`ocr_completed`, which is neither `verified` nor `rejected`. -/
theorem ocr_terminal_counterexample :
    docStatus "doc1" exVerifiedState = some .verified ∧
      (process_ocr "doc1" exOcrRandom 3 exVerifiedState).1.isOk = true ∧
      docStatus "doc1" (process_ocr "doc1" exOcrRandom 3 exVerifiedState).2 =
        some .ocr_completed ∧
      DocumentStatus.ocr_completed ≠ .verified ∧
      DocumentStatus.ocr_completed ≠ .rejected :=
  ⟨rfl, rfl, rfl, by decide, by decide⟩

/-- C4 (amended): `verified` and `rejected` are not terminal for OCR:
RequestOCR on any existing document — whatever its current status,
including `verified` or `rejected` — succeeds and sets the status to
`ocr_completed`; new-version creation likewise remains legal from any
status. -/
theorem ocr_reprocesses_any_status (did : String) (r : OcrRandom) (now : Nat)
    (s : ServerState) (f : UploadFile) (ub uid nid : String) (now2 : Nat)
    (h : (findDoc did s).isSome = true) :
    docStatus did (process_ocr did r now s).2 = some .ocr_completed ∧
      (create_document_version did f ub uid nid now2 s).1.isOk = true := by
  obtain ⟨doc, hd⟩ := Option.isSome_iff_exists.1 h
  constructor
  · have hd2 := hd
    simp only [findDoc] at hd2
    simp only [process_ocr, hd, docStatus]
    simp only [findDoc]
    rw [updateFirst_find?]
    · rw [updateFirst_find?]
      · rw [hd2]; rfl
      · exact fun a => rfl
    · exact fun a => rfl
  · obtain ⟨d', hd', _⟩ := cv_fst_ok f ub uid nid now2 hd
    rw [hd']
    rfl

/-- Witness for C4 (amended) at the concrete state whose document is
`verified`. -/
theorem ocr_reprocesses_any_status_witness :
    docStatus "doc1" (process_ocr "doc1" exOcrRandom 5 exVerifiedState).2 =
      some .ocr_completed :=
  (ocr_reprocesses_any_status "doc1" exOcrRandom 5 exVerifiedState exFile2 "admin" "u" "n" 6
    (by decide)).1

/-! ## C5 -/

theorem pdfMockText_ne_empty (r : OcrRandom) : pdfMockText r ≠ "" := by
  rw [pdfMockText]
  repeat apply str_append_ne_empty
  decide

theorem imageMockText_ne_empty (r : OcrRandom) : imageMockText r ≠ "" := by
  rw [imageMockText]
  repeat apply str_append_ne_empty
  decide

/-- C5: RequestOCR fails (with NotFound) exactly when the id is absent,
and then changes nothing; on a present id it completes, leaving the
document with status `ocr_completed`, a stored OCR confidence inside
[0.75, 0.98], and non-empty stored OCR text.  The hypotheses bound the
underlying uniform draw of `random.uniform(0.75, 0.98)`. -/
theorem requestOcr_spec (did : String) (r : OcrRandom) (now : Nat) (s : ServerState)
    (h0 : 0 ≤ r.u) (h1 : r.u ≤ 1) :
    ((process_ocr did r now s).1.isOk = false ↔ findDoc did s = none) ∧
      (findDoc did s = none →
        (process_ocr did r now s).1 =
            Except.error (ApiError.notFound "Document not found") ∧
          (process_ocr did r now s).2 = s) ∧
      ((findDoc did s).isSome = true →
        docStatus did (process_ocr did r now s).2 = some .ocr_completed ∧
          (∃ c, docOcrConfidence did (process_ocr did r now s).2 = some c ∧
            75/100 ≤ c ∧ c ≤ 98/100) ∧
          (∃ t, docOcrText did (process_ocr did r now s).2 = some t ∧ t ≠ "")) := by
  cases hfd : findDoc did s with
  | none =>
    refine ⟨?_, fun _ => ⟨?_, ?_⟩, fun hs => ?_⟩
    · simp [process_ocr, hfd, Except.isOk, Except.toBool]
    · simp [process_ocr, hfd]
    · simp [process_ocr, hfd]
    · simp at hs
  | some doc =>
    refine ⟨?_, ?_, fun _ => ?_⟩
    · simp [process_ocr, hfd, Except.isOk, Except.toBool]
    · intro hnone
      exact absurd hnone (by simp)
    · have hfd2 := hfd
      simp only [findDoc] at hfd2
      have hfind : (findDoc did (process_ocr did r now s).2) =
          some { doc with
            status := .ocr_completed
            ocr_text := some (mock_ocr_processing doc.file_path doc.mime_type r).text
            ocr_confidence := (mock_ocr_processing doc.file_path doc.mime_type r).confidence
            ocr_metadata := some (mock_ocr_processing doc.file_path doc.mime_type r).metadata
            updated_at := now } := by
        simp only [process_ocr, hfd]
        simp only [findDoc]
        rw [updateFirst_find?]
        · rw [updateFirst_find?]
          · rw [hfd2]; rfl
          · exact fun a => rfl
        · exact fun a => rfl
      refine ⟨?_, ⟨(mock_ocr_processing doc.file_path doc.mime_type r).confidence, ?_, ?_, ?_⟩,
        ⟨(mock_ocr_processing doc.file_path doc.mime_type r).text, ?_, ?_⟩⟩
      · rw [docStatus, hfind]; rfl
      · rw [docOcrConfidence, hfind]; rfl
      · show 75/100 ≤ uniformDraw (75/100) (98/100) r.u
        rw [uniformDraw]
        nlinarith
      · show uniformDraw (75/100) (98/100) r.u ≤ 98/100
        rw [uniformDraw]
        nlinarith
      · rw [docOcrText, hfind]; rfl
      · show (if strContains "pdf" doc.mime_type.toLower then pdfMockText r
            else imageMockText r) ≠ ""
        by_cases hb : strContains "pdf" doc.mime_type.toLower = true
        · rw [if_pos hb]; exact pdfMockText_ne_empty r
        · rw [if_neg hb]; exact imageMockText_ne_empty r

/-- Witness for C5 at the concrete one-document state and the fixed
draw assignment. -/
theorem requestOcr_spec_witness :
    docStatus "doc1" (process_ocr "doc1" exOcrRandom 3 exState1).2 = some .ocr_completed :=
  ((requestOcr_spec "doc1" exOcrRandom 3 exState1 (by norm_num [exOcrRandom])
      (by norm_num [exOcrRandom])).2.2 (by decide)).1

/-! ## C6 -/

/-- C6: Upload raises the MIME-type validation error, with no file written
and no record inserted, exactly when the content type is outside the
allowed set; on an allowed content type that error is not raised. -/
theorem upload_mime_validation (file : UploadFile) (dt : DocumentType)
    (cid : Option String) (ub uid nid : String) (now : Nat) (s : ServerState) :
    (allowed_types.contains file.content_type = false →
      (upload_document file dt cid ub uid nid now s).1 =
          Except.error (ApiError.badRequest "File type not supported") ∧
        (upload_document file dt cid ub uid nid now s).2 = s) ∧
      (allowed_types.contains file.content_type = true →
        (upload_document file dt cid ub uid nid now s).1.isOk = true) := by
  constructor
  · intro hc
    have hc2 : ¬ (allowed_types.contains file.content_type = true) := by
      rw [hc]
      exact Bool.false_ne_true
    rw [upload_document, if_neg hc2]
    exact ⟨rfl, rfl⟩
  · intro hc
    rw [upload_document, if_pos hc]
    rfl

/-- Witness for C6: a text/plain upload is rejected and leaves the empty
state unchanged. -/
theorem upload_mime_validation_witness :
    (upload_document { filename := "a.txt", content_type := "text/plain", size := 5 }
        .other none "admin" "u" "n" 0 initState).2 = initState :=
  ((upload_mime_validation { filename := "a.txt", content_type := "text/plain", size := 5 }
      .other none "admin" "u" "n" 0 initState).1 (by decide)).2

/-! ## C7 -/

/-- C7: CreateVersion fails with NotFound when the parent id is absent;
when present, the inserted document has status `uploaded`, its parent
reference equal to the given id, and document type and claim link copied
from the parent. -/
theorem createVersion_copies_parent (did : String) (file : UploadFile)
    (ub uid nid : String) (now : Nat) (s : ServerState) :
    (findDoc did s = none →
      (create_document_version did file ub uid nid now s).1 =
        Except.error (ApiError.notFound "Parent document not found")) ∧
      (∀ parent, findDoc did s = some parent →
        ∀ d, (create_document_version did file ub uid nid now s).1 = Except.ok d →
          d.status = .uploaded ∧ d.parent_document_id = some did ∧
            d.document_type = parent.document_type ∧ d.claim_id = parent.claim_id) := by
  constructor
  · intro h
    rw [create_document_version, h]
  · intro parent hp d hd
    rw [create_document_version, hp] at hd
    injection hd with h2
    rw [← h2]
    exact ⟨rfl, rfl, rfl, rfl⟩

/-- The document that CreateVersion inserts in `exState2`. -/
def exDoc2 : Document :=
  { id := "doc2"
    filename := "defg5678_cert2.pdf"
    original_filename := "cert2.pdf"
    file_path := "uploads/defg5678_cert2.pdf"
    file_size := 120
    mime_type := "application/pdf"
    document_type := .land_document
    status := .uploaded
    claim_id := none
    version := 2
    parent_document_id := some "doc1"
    ocr_text := none
    ocr_confidence := 0
    ocr_metadata := none
    uploaded_by := "admin"
    created_at := 1
    updated_at := 1 }

/-- Witness for C7 at the concrete one-document state. -/
theorem createVersion_copies_parent_witness :
    exDoc2.document_type = exRoot.document_type :=
  ((createVersion_copies_parent "doc1" exFile2 "admin" "defg5678" "doc2" 1 exState1).2
    exRoot rfl exDoc2 rfl).2.2.1

/-! ## C8 -/

/-- C8: the claim that an over-maximum limit is clamped server-side is
false on the code: FastAPI rejects `limit=101` on GET /documents with a
422 validation error instead of returning at most 100 records — here even
on the empty database, where returning everything would have been
trivially within bounds. -/
theorem listing_limit_clamp_counterexample :
    get_documents none none none 101 initState =
      Except.error (ApiError.validationError "Input should be less than or equal to 100") :=
  rfl

theorem applyLimit_length_le {lim : Int} (hl : 1 <= lim) (l : List A) :
    (applyLimit lim l).length <= lim.natAbs := by
  rw [applyLimit, if_neg (by omega)]
  simp only [List.length_take]
  exact Nat.min_le_left _ _

/-- C8 (amended): the caller-supplied limit is validated, not clamped,
against the per-collection maximum (100 for documents, 1000 for villages
and claims): a positive within-bound limit yields at most that many
records, while a limit above the maximum makes the request fail with a
validation error. -/
theorem listing_limit_validated (s : ServerState) :
    (∀ (cid : Option String) (dt : Option DocumentType) (st : Option DocumentStatus)
        (lim : Int), lim ≤ 100 → (get_documents cid dt st lim s).isOk = true) ∧
      (∀ (cid : Option String) (dt : Option DocumentType) (st : Option DocumentStatus)
          (lim : Int) (l : List Document), 1 ≤ lim →
        get_documents cid dt st lim s = Except.ok l → l.length ≤ lim.natAbs) ∧
      (∀ (cid : Option String) (dt : Option DocumentType) (st : Option DocumentStatus)
          (lim : Int), 100 < lim → get_documents cid dt st lim s =
          Except.error (ApiError.validationError "Input should be less than or equal to 100")) ∧
      (∀ (st di : Option String) (lim : Int), lim ≤ 1000 →
        (get_villages st di lim s).isOk = true) ∧
      (∀ (st di : Option String) (lim : Int) (l : List Village), 1 ≤ lim →
        get_villages st di lim s = Except.ok l → l.length ≤ lim.natAbs) ∧
      (∀ (st di : Option String) (lim : Int), 1000 < lim → get_villages st di lim s =
          Except.error (ApiError.validationError "Input should be less than or equal to 1000")) ∧
      (∀ (cs : Option ClaimStatus) (vi ao : Option String) (lim : Int), lim ≤ 1000 →
        (get_claims cs vi ao lim s).isOk = true) ∧
      (∀ (cs : Option ClaimStatus) (vi ao : Option String) (lim : Int)
          (l : List ForestRightsClaim), 1 ≤ lim →
        get_claims cs vi ao lim s = Except.ok l → l.length ≤ lim.natAbs) ∧
      (∀ (cs : Option ClaimStatus) (vi ao : Option String) (lim : Int), 1000 < lim →
        get_claims cs vi ao lim s =
          Except.error (ApiError.validationError "Input should be less than or equal to 1000")) := by
  refine ⟨?_, ?_, ?_, ?_, ?_, ?_, ?_, ?_, ?_⟩
  · intro cid dt st lim h
    rw [get_documents, if_pos h]
    rfl
  · intro cid dt st lim l h1 hok
    by_cases hle : lim ≤ 100
    · rw [get_documents, if_pos hle] at hok
      injection hok with h2
      rw [← h2]
      exact applyLimit_length_le h1 _
    · rw [get_documents, if_neg hle] at hok
      exact absurd hok (by simp)
  · intro cid dt st lim h
    rw [get_documents, if_neg (show ¬lim ≤ 100 by omega)]
  · intro st di lim h
    rw [get_villages, if_pos h]
    rfl
  · intro st di lim l h1 hok
    by_cases hle : lim ≤ 1000
    · rw [get_villages, if_pos hle] at hok
      injection hok with h2
      rw [← h2]
      exact applyLimit_length_le h1 _
    · rw [get_villages, if_neg hle] at hok
      exact absurd hok (by simp)
  · intro st di lim h
    rw [get_villages, if_neg (show ¬lim ≤ 1000 by omega)]
  · intro cs vi ao lim h
    rw [get_claims, if_pos h]
    rfl
  · intro cs vi ao lim l h1 hok
    by_cases hle : lim ≤ 1000
    · rw [get_claims, if_pos hle] at hok
      injection hok with h2
      rw [← h2]
      exact applyLimit_length_le h1 _
    · rw [get_claims, if_neg hle] at hok
      exact absurd hok (by simp)
  · intro cs vi ao lim h
    rw [get_claims, if_neg (show ¬lim ≤ 1000 by omega)]

/-- Witness for C8 (amended): a within-bound request on the empty database
succeeds. -/
theorem listing_limit_validated_witness :
    (get_documents none none none 50 initState).isOk = true :=
  (listing_limit_validated initState).1 none none none 50 (by omega)

/-! ## C9 -/

/-- C9: claim creation assigns the mocked AI fields from the fixed
4.0-hectare threshold — recommendation "approve" with confidence 0.85
below it, "review" with confidence 0.65 at or above it — and the Update
operation never changes the stored AI fields afterwards. -/
theorem claim_ai_threshold (cd : ClaimCreate) (nid : String) (year now : Nat)
    (s : ServerState) :
    (cd.area_claimed < 4 →
      (create_claim cd nid year now s).1.ai_recommendation = "approve" ∧
        (create_claim cd nid year now s).1.ai_confidence = 85/100) ∧
      (4 ≤ cd.area_claimed →
        (create_claim cd nid year now s).1.ai_recommendation = "review" ∧
          (create_claim cd nid year now s).1.ai_confidence = 65/100) ∧
      (∀ (cid : String) (upd : ClaimUpdate) (now2 : Nat) (s2 : ServerState),
        claimAiRecommendation cid (update_claim cid upd now2 s2).2 =
            claimAiRecommendation cid s2 ∧
          claimAiConfidence cid (update_claim cid upd now2 s2).2 =
            claimAiConfidence cid s2) := by
  refine ⟨fun hc => ⟨?_, ?_⟩, fun hc => ⟨?_, ?_⟩, ?_⟩
  · show (if cd.area_claimed < 4 then "approve" else "review") = "approve"
    rw [if_pos hc]
  · show (if cd.area_claimed < 4 then (85/100 : ℚ) else 65/100) = 85/100
    rw [if_pos hc]
  · show (if cd.area_claimed < 4 then "approve" else "review") = "review"
    rw [if_neg (not_lt.2 hc)]
  · show (if cd.area_claimed < 4 then (85/100 : ℚ) else 65/100) = 65/100
    rw [if_neg (not_lt.2 hc)]
  · intro cid upd now2 s2
    cases hfc : findClaim cid s2 with
    | none =>
      simp [update_claim, hfc]
    | some c0 =>
      have hfc2 := hfc
      simp only [findClaim] at hfc2
      constructor
      · simp only [update_claim, hfc, claimAiRecommendation]
        simp only [findClaim]
        rw [updateFirst_find?]
        · rw [hfc2]; rfl
        · exact fun a => rfl
      · simp only [update_claim, hfc, claimAiConfidence]
        simp only [findClaim]
        rw [updateFirst_find?]
        · rw [hfc2]; rfl
        · exact fun a => rfl

/-- A claim-creation request for 2.5 hectares. -/
def exClaimCreate : ClaimCreate :=
  { beneficiary_name := "Test Beneficiary"
    village_id := "v1"
    claim_type := .ifr
    area_claimed := 5/2
    survey_numbers := ["Test/1", "Test/2"] }

/-- Witness for C9 at a concrete 2.5-hectare request. -/
theorem claim_ai_threshold_witness :
    (create_claim exClaimCreate "c1" 2024 0 initState).1.ai_recommendation = "approve" :=
  ((claim_ai_threshold exClaimCreate "c1" 2024 0 initState).1
    (by norm_num [exClaimCreate])).1

/-! ## C10 -/

/-- C10: every claim created through POST /claims has status `pending` and
hard-coded OCR confidence 0.92, whatever the request contents; the request
model carries no field for the initial status, recommendation or
confidences, and the stored AI fields depend only on the claimed area. -/
theorem claim_creation_defaults (cd : ClaimCreate) (nid : String) (year now : Nat)
    (s : ServerState) :
    (create_claim cd nid year now s).1.status = .pending ∧
      (create_claim cd nid year now s).1.ocr_confidence = 92/100 ∧
      (∀ (cd2 : ClaimCreate) (nid2 : String) (year2 now2 : Nat) (s2 : ServerState),
        cd.area_claimed = cd2.area_claimed →
          (create_claim cd nid year now s).1.ai_recommendation =
              (create_claim cd2 nid2 year2 now2 s2).1.ai_recommendation ∧
            (create_claim cd nid year now s).1.ai_confidence =
              (create_claim cd2 nid2 year2 now2 s2).1.ai_confidence) := by
  refine ⟨rfl, rfl, ?_⟩
  intro cd2 nid2 year2 now2 s2 harea
  constructor
  · show (if cd.area_claimed < 4 then "approve" else "review") =
      (if cd2.area_claimed < 4 then "approve" else "review")
    rw [harea]
  · show (if cd.area_claimed < 4 then (85/100 : ℚ) else 65/100) =
      (if cd2.area_claimed < 4 then (85/100 : ℚ) else 65/100)
    rw [harea]

/-- Witness for C10: two requests differing in everything but the claimed
area receive the same AI recommendation. -/
theorem claim_creation_defaults_witness :
    (create_claim exClaimCreate "c1" 2024 0 initState).1.ai_recommendation =
      (create_claim { exClaimCreate with beneficiary_name := "Other", village_id := "v2" }
          "c2" 2025 9 initState).1.ai_recommendation :=
  ((claim_creation_defaults exClaimCreate "c1" 2024 0 initState).2.2
    { exClaimCreate with beneficiary_name := "Other", village_id := "v2" }
    "c2" 2025 9 initState rfl).1

end FRA
